import Mathlib

/-!
# A leveled logger: `src/log.go`

Shallow embedding of the `Logger` of `src/log.go` and of the operations on it.

* A Go `string` is a finite byte sequence; it is represented by a `List Char`,
  every byte by the character with the same code, so that `len(s)` is the
  length of the list and `s[i]` its `i`-th element.
* Go `int` values (threshold, flags, level, call depth, line number) are `Int`.
* A Go runtime panic is recorded in the `panicked` field of the `Outcome` of a
  call, together with the state the call left behind when it was unwound.
* The mutex of the `Logger` is not represented: the calls modelled here are
  the sequential ones.
* What the code reads from its environment (the clock, the call stack, the
  formatter of package `fmt`, the header of the standard logger of package
  `log`) is gathered in `Env`.
* The package variable `std` is passed to the package-level functions as the
  Logger they work on; a program's use of one Logger is a list of operations
  (`Op`), run in order, a recovered panic leaving the Logger as the call left it.
-/

namespace Log

/-- Go strings, byte by byte. -/
abbrev GoString := List Char

/-! ## Constants (`log.go`, lines 14-32) -/

def LevelTrace : Int := 0
def LevelDebug : Int := 1
def LevelInfo : Int := 2
def LevelWarn : Int := 3
def LevelError : Int := 4
def LevelFatal : Int := 5

def Ltime : Int := 1
def Lfile : Int := 2
def Llevel : Int := 4

/-- The table `LevelName [6]string`. -/
def LevelName : List GoString :=
  ["Trace".toList, "Debug".toList, "Info".toList, "Warn".toList, "Error".toList, "Fatal".toList]

/-- The index expression `LevelName[level]`: `none` stands for the runtime panic
"index out of range" that Go raises when `level` is not in `0..5`. -/
def LevelNameAt (level : Int) : Option GoString :=
  if level < 0 then none else LevelName[level.toNat]?

/-! ## The data model (`log.go`, lines 34-62) -/

/-- Modelled from the spec: the `Handler` interface (the sink of a `Logger`) is
declared in a file of this repository that is not under `src/`. The spec (4.2) asks
of a sink only that it accepts a finished byte sequence; a handler is represented
by the byte sequences it has been handed so far, oldest first. -/
structure Handler where
  written : List GoString
deriving DecidableEq

/-- Modelled from the spec: `Write` on a `Handler`, the one capability the spec
asks of a sink: the handler receives the bytes `p` as one write. -/
def Handler.Write (h : Handler) (p : GoString) : Handler :=
  { written := h.written ++ [p] }

/-- The struct `Logger` without its mutex; `buf` is the content of `*bytes.Buffer`. -/
structure Logger where
  level : Int
  flag : Int
  handler : Handler
  buf : GoString
deriving DecidableEq

/-- The function `New(handler, flag)`. -/
def New (handler : Handler) (flag : Int) : Logger :=
  { level := LevelInfo, handler := handler, flag := flag, buf := [] }

/-- The function `NewDefault(handler)`. -/
def NewDefault (handler : Handler) : Logger :=
  New handler (Int.lor (Int.lor Ltime Lfile) Llevel)

/-- The method `SetLevel`. -/
def SetLevel (l : Logger) (level : Int) : Logger :=
  { l with level := level }

/-! ## The environment of a call -/

/-- Arguments of a formatting call (`v ...interface{}`): integers and strings. -/
inductive Value where
  | int (n : Int)
  | str (s : GoString)
deriving DecidableEq

/-- What one call of `Output` reads from outside the `Logger`. -/
structure Env where
  /-- The text `time.Now().Format(TimeFormat)`. -/
  now : GoString
  /-- The results `file, line, ok` of `runtime.Caller(callDepth)`. -/
  Caller : Int → GoString × Int × Bool
  /-- The function `fmt.Sprintf`. -/
  Sprintf : GoString → List Value → GoString
  /-- The header (prefix, date and time as its flags ask) that the standard
  logger of package `log` puts in front of an entry. -/
  stdHeader : GoString

/-! ## The standard logger of Go's package `log`

`Output` hands its line to `log.Println`. The Go documentation says of it:
"Println calls Output to print to the standard logger. Arguments are handled in
the manner of fmt.Println", of `fmt.Println` "Spaces are always added between
operands and a newline is appended", and of `log.Output` "A newline is appended
if the last character of s is not already a newline". A `*bytes.Buffer` operand
is printed through its `String` method, that is as its content. -/

/-- The standard logger of package `log`, represented by the writes it has made
on its output (by default the standard error stream), oldest first. -/
structure StdLogger where
  out : List GoString
deriving DecidableEq

/-- The text `fmt.Sprintln(buf)` for the single operand `buf`. -/
def fmt_Sprintln (buf : GoString) : GoString :=
  buf ++ ['\n']

/-- The function `log.Output` of the standard logger: one write of the header, the
text, and a newline unless the text already ends with one. -/
def stdlog_Output (hdr : GoString) (std : StdLogger) (s : GoString) : StdLogger :=
  { out := std.out ++ [hdr ++ s ++ (if s.getLast? = some '\n' then [] else ['\n'])] }

/-- The call `log.Println(buf)`. -/
def stdlog_Println (env : Env) (std : StdLogger) (buf : GoString) : StdLogger :=
  stdlog_Output env.stdHeader std (fmt_Sprintln buf)

/-! ## `Output` (`log.go`, lines 80-134) -/

/-- How a call ends: the `Logger` and the standard logger it leaves behind, and
whether it ended in a runtime panic. -/
structure Outcome where
  logger : Logger
  std : StdLogger
  panicked : Bool
deriving DecidableEq

/-- The method `buf.WriteByte`. -/
def WriteByte (buf : GoString) (c : Char) : GoString := buf ++ [c]

/-- The method `buf.WriteString`. -/
def WriteString (buf : GoString) (s : GoString) : GoString := buf ++ s

/-- The function `strconv.Itoa`. -/
def Itoa : Int → GoString
  | Int.ofNat m => Nat.toDigits 10 m
  | Int.negSucc m => '-' :: Nat.toDigits 10 (m + 1)

/-- The loop of lines 103-108, entered with `i`: while `i > 0`, a `'/'` at index
`i` cuts the path to `file[i+1:]` and ends the loop, otherwise `i` goes down. -/
def basenameLoop (file : GoString) : Nat → GoString
  | 0 => file
  | i + 1 => if file[i + 1]? = some '/' then file.drop (i + 2) else basenameLoop file i

/-- Lines 98-109: the file and line that are rendered for `callDepth`. -/
def callerLocation (env : Env) (callDepth : Int) : GoString × Int :=
  match env.Caller callDepth with
  | (file, line, ok) =>
    if !ok then ("???".toList, 0) else (basenameLoop file (file.length - 1), line)

/-- Lines 90-116: the buffer after the time and the location fields. -/
def writeTimeAndFile (env : Env) (l : Logger) (callDepth : Int) : GoString :=
  let buf := l.buf
  let buf :=
    if Int.land l.flag Ltime > 0 then
      WriteString (WriteString (WriteByte buf '[') env.now) "] ".toList
    else buf
  if Int.land l.flag Lfile > 0 then
    let loc := callerLocation env callDepth
    WriteByte (WriteString (WriteByte (WriteString buf loc.1) ':') (Itoa loc.2)) ' '
  else buf

/-- Lines 124-133, entered with the buffer `buf`: the body is formatted and appended,
its last byte inspected (a panic when the body is empty: index -1), the newline
added when missing, the buffer handed to `log.Println` and reset. The `Reset` is
not deferred: a panic leaves the buffer as it is. -/
def writeBody (env : Env) (l : Logger) (std : StdLogger) (buf : GoString)
    (format : GoString) (v : List Value) : Outcome :=
  let s := env.Sprintf format v
  let buf := WriteString buf s
  match s.getLast? with
  | none => { logger := { l with buf := buf }, std := std, panicked := true }
  | some c =>
    let buf := if c ≠ '\n' then WriteByte buf '\n' else buf
    { logger := { l with buf := [] }, std := stdlog_Println env std buf, panicked := false }

/-- The method `Output(callDepth, level, format, v...)`. -/
def Output (env : Env) (l : Logger) (std : StdLogger) (callDepth : Int) (level : Int)
    (format : GoString) (v : List Value) : Outcome :=
  if l.level > level then
    { logger := l, std := std, panicked := false }
  else
    let buf := writeTimeAndFile env l callDepth
    if Int.land l.flag Llevel > 0 then
      let buf := WriteByte buf '['
      match LevelNameAt level with
      | none => { logger := { l with buf := buf }, std := std, panicked := true }
      | some name =>
        writeBody env l std (WriteString (WriteString buf name) "] ".toList) format v
    else
      writeBody env l std buf format v

/-! ## The leveled methods (`log.go`, lines 136-164) -/

def Trace (env : Env) (l : Logger) (std : StdLogger) (format : GoString) (v : List Value) :
    Outcome :=
  Output env l std 2 LevelTrace format v

def Debug (env : Env) (l : Logger) (std : StdLogger) (format : GoString) (v : List Value) :
    Outcome :=
  Output env l std 2 LevelDebug format v

def Info (env : Env) (l : Logger) (std : StdLogger) (format : GoString) (v : List Value) :
    Outcome :=
  Output env l std 2 LevelInfo format v

def Warn (env : Env) (l : Logger) (std : StdLogger) (format : GoString) (v : List Value) :
    Outcome :=
  Output env l std 2 LevelWarn format v

def Error (env : Env) (l : Logger) (std : StdLogger) (format : GoString) (v : List Value) :
    Outcome :=
  Output env l std 2 LevelError format v

def Fatal (env : Env) (l : Logger) (std : StdLogger) (format : GoString) (v : List Value) :
    Outcome :=
  Output env l std 2 LevelFatal format v

/-- The six leveled methods, in level order. -/
def leveledMethods : List (Env → Logger → StdLogger → GoString → List Value → Outcome) :=
  [Trace, Debug, Info, Warn, Error, Fatal]

/-! ## Flag combinations and a concrete environment -/

/-- The flag value that enables the time (`t`), the caller location (`c`) and the
level name (`n`): the bits `Ltime`, `Lfile`, `Llevel` of the chosen fields. -/
def flagOf (t c n : Bool) : Int :=
  Int.lor (Int.lor (if t then Ltime else 0) (if c then Lfile else 0)) (if n then Llevel else 0)

/-- A fragment of `fmt.Sprintf`, used for the concrete calls below only: `%%` gives a
percent sign, `%d` the decimal of an integer operand, `%s` a string operand, and a
byte outside a verb is copied. Formats with other verbs, or with operands that are
missing, left over or of the wrong kind, are outside the fragment; the general
statements take the formatter from `Env` and do not depend on this definition. -/
def Sprintf : GoString → List Value → GoString
  | [], _ => []
  | c :: rest, vs =>
    if c = '%' then
      match rest, vs with
      | '%' :: rest2, vs => '%' :: Sprintf rest2 vs
      | 'd' :: rest2, Value.int n :: vs => Itoa n ++ Sprintf rest2 vs
      | 's' :: rest2, Value.str s :: vs => s ++ Sprintf rest2 vs
      | rest, vs => c :: Sprintf rest vs
    else c :: Sprintf rest vs

/-- A concrete environment: a clock reading, a call stack whose frames all resolve
to `/home/u/main.go:12`, the formatter above, and the header of a standard logger
left with its default flags (date and time). -/
def exampleEnv : Env :=
  { now := "2009/11/10 23:00:00".toList
    Caller := fun _ => ("/home/u/main.go".toList, 12, true)
    Sprintf := Sprintf
    stdHeader := "2009/11/10 23:00:00 ".toList }

/-- A handler that has received nothing yet. -/
def freshHandler : Handler := { written := [] }

/-- A standard logger that has written nothing yet. -/
def freshStd : StdLogger := { out := [] }

/-- An environment like `exampleEnv` but for a program built from the source file
`/main.go`, in the root directory: every frame resolves to `/main.go:12`. -/
def rootEnv : Env :=
  { now := "2009/11/10 23:00:00".toList
    Caller := fun _ => ("/main.go".toList, 12, true)
    Sprintf := Sprintf
    stdHeader := "2009/11/10 23:00:00 ".toList }

/-- An environment like `exampleEnv` in which the caller lookup fails: `ok` is false,
and the file and line that come with it are not meaningful. -/
def failedLookupEnv : Env :=
  { now := "2009/11/10 23:00:00".toList
    Caller := fun _ => ("/home/u/main.go".toList, 12, false)
    Sprintf := Sprintf
    stdHeader := "2009/11/10 23:00:00 ".toList }

/-- The environment `env` with the caller lookup replaced by one that succeeds and
returns the file `???` and the line 0 at every depth. -/
def withPlaceholderLookup (env : Env) : Env :=
  { env with Caller := fun _ => ("???".toList, 0, true) }

/-! ## The package-level Logger (`log.go`, lines 64-69 and 166-192)

The variable `std` holds the Logger the package-level functions work on. Its value at
start-up is `std` below; the functions take its current value `s` and give the
outcome of the call, as the methods do. -/

/-- Modelled from the spec: `newStdHandler()` returns what `NewStreamHandler(os.Stdout)`
gives, and `NewStreamHandler` is declared in a file of this repository that is not
under `src/`. The spec (4.3) calls it the default stream sink; it is represented as a
handler that has received nothing. -/
def newStdHandler : Handler := { written := [] }

/-- The package variable `std`, as initialised: `NewDefault(newStdHandler())`. -/
def std : Logger := NewDefault newStdHandler

/-- The package-level function `SetLevel`: `std.SetLevel(level)`. -/
def Pkg.SetLevel (s : Logger) (level : Int) : Logger :=
  Log.SetLevel s level

/-- The package-level function `Trace`: `std.Output(2, LevelTrace, format, v...)`. -/
def Pkg.Trace (env : Env) (s : Logger) (sl : StdLogger) (format : GoString)
    (v : List Value) : Outcome :=
  Output env s sl 2 LevelTrace format v

/-- The package-level function `Debug`: `std.Output(2, LevelDebug, format, v...)`. -/
def Pkg.Debug (env : Env) (s : Logger) (sl : StdLogger) (format : GoString)
    (v : List Value) : Outcome :=
  Output env s sl 2 LevelDebug format v

/-- The package-level function `Info`: `std.Output(2, LevelInfo, format, v...)`. -/
def Pkg.Info (env : Env) (s : Logger) (sl : StdLogger) (format : GoString)
    (v : List Value) : Outcome :=
  Output env s sl 2 LevelInfo format v

/-- The package-level function `Warn`: `std.Output(2, LevelWarn, format, v...)`. -/
def Pkg.Warn (env : Env) (s : Logger) (sl : StdLogger) (format : GoString)
    (v : List Value) : Outcome :=
  Output env s sl 2 LevelWarn format v

/-- The package-level function `Error`: `std.Output(2, LevelError, format, v...)`. -/
def Pkg.Error (env : Env) (s : Logger) (sl : StdLogger) (format : GoString)
    (v : List Value) : Outcome :=
  Output env s sl 2 LevelError format v

/-- The package-level function `Fatal`: `std.Output(2, LevelFatal, format, v...)`. -/
def Pkg.Fatal (env : Env) (s : Logger) (sl : StdLogger) (format : GoString)
    (v : List Value) : Outcome :=
  Output env s sl 2 LevelFatal format v

/-! ## Sequences of operations on one Logger

A program uses a Logger through `SetLevel` and `Output` (the leveled methods are
calls of `Output`). A call that panics releases the mutex (the `Unlock` of line 82
is deferred), so a caller that recovers from the panic goes on with the Logger as
the call left it. -/

/-- One operation on a Logger, with the environment it runs in. -/
inductive Op where
  | setLevel (level : Int)
  | output (env : Env) (callDepth : Int) (level : Int) (format : GoString) (v : List Value)

/-- The Logger and the standard logger after one operation. -/
def step (s : Logger × StdLogger) : Op → Logger × StdLogger
  | Op.setLevel level => (SetLevel s.1 level, s.2)
  | Op.output env callDepth level format v =>
    ((Output env s.1 s.2 callDepth level format v).logger,
      (Output env s.1 s.2 callDepth level format v).std)

/-- Whether the operation, started in `s`, ends in a panic. -/
def stepPanics (s : Logger × StdLogger) : Op → Bool
  | Op.setLevel _ => false
  | Op.output env callDepth level format v =>
    (Output env s.1 s.2 callDepth level format v).panicked

/-- The Logger and the standard logger after a sequence of operations, first first. -/
def run (s : Logger × StdLogger) : List Op → Logger × StdLogger
  | [] => s
  | op :: ops => run (step s op) ops

/-- Whether no operation of the sequence, started in `s`, ends in a panic. -/
def faultFree (s : Logger × StdLogger) : List Op → Bool
  | [] => true
  | op :: ops => !stepPanics s op && faultFree (step s op) ops

/-- The argument of the most recent `SetLevel` of the sequence, `t` if it has none. -/
def lastLevel (t : Int) : List Op → Int
  | [] => t
  | Op.setLevel level :: ops => lastLevel level ops
  | Op.output _ _ _ _ _ :: ops => lastLevel t ops

/-- The settings of two Loggers agree: same threshold, same flags, same handler. -/
def sameSettings (a b : Logger) : Prop :=
  a.level = b.level ∧ a.flag = b.flag ∧ a.handler = b.handler

/-! ## Lemmas on the embedding -/

theorem flagOf_time (t c n : Bool) : Int.land (flagOf t c n) Ltime > 0 ↔ t = true := by
  cases t <;> cases c <;> cases n <;> decide

theorem flagOf_file (t c n : Bool) : Int.land (flagOf t c n) Lfile > 0 ↔ c = true := by
  cases t <;> cases c <;> cases n <;> decide

theorem flagOf_level (t c n : Bool) : Int.land (flagOf t c n) Llevel > 0 ↔ n = true := by
  cases t <;> cases c <;> cases n <;> decide

/-- Each of the six severities has a name in the table. -/
theorem LevelNameAt_of_range (level : Int) (h0 : 0 ≤ level) (h5 : level ≤ 5) :
    ∃ name, LevelNameAt level = some name := by
  interval_cases level <;> exact ⟨_, rfl⟩

/-- The display names of the six severities, in level order. -/
theorem LevelNameAt_values :
    LevelNameAt LevelTrace = some "Trace".toList ∧ LevelNameAt LevelDebug = some "Debug".toList ∧
    LevelNameAt LevelInfo = some "Info".toList ∧ LevelNameAt LevelWarn = some "Warn".toList ∧
    LevelNameAt LevelError = some "Error".toList ∧ LevelNameAt LevelFatal = some "Fatal".toList ∧
    LevelNameAt (-1) = none ∧ LevelNameAt 6 = none := by
  decide

/-- A call whose level is below the threshold returns at once and changes nothing. -/
theorem Output_of_filtered (env : Env) (l : Logger) (std : StdLogger) (callDepth level : Int)
    (format : GoString) (v : List Value) (h : l.level > level) :
    Output env l std callDepth level format v = { logger := l, std := std, panicked := false } := by
  unfold Output
  simp [h]

/-- With a non-empty body, lines 124-133 hand the buffer, the body and the missing
newline to `log.Println` once, reset the buffer and return. -/
theorem writeBody_of_ne_nil (env : Env) (l : Logger) (std : StdLogger) (buf format : GoString)
    (v : List Value) (h : env.Sprintf format v ≠ []) :
    writeBody env l std buf format v =
      { logger := { l with buf := [] },
        std := stdlog_Println env std
          (buf ++ env.Sprintf format v ++
            (if (env.Sprintf format v).getLast? = some '\n' then [] else ['\n'])),
        panicked := false } := by
  unfold writeBody
  cases hs : (env.Sprintf format v).getLast? with
  | none => exact absurd (List.getLast?_eq_none_iff.mp hs) h
  | some c =>
    by_cases hc : c = '\n' <;> simp [hs, hc, WriteString, WriteByte]

/-- With an empty body, lines 124-133 end in a panic, with nothing written and the
buffer left as it was built. -/
theorem writeBody_of_nil (env : Env) (l : Logger) (std : StdLogger) (buf format : GoString)
    (v : List Value) (h : env.Sprintf format v = []) :
    writeBody env l std buf format v =
      { logger := { l with buf := buf }, std := std, panicked := true } := by
  unfold writeBody
  simp [h, WriteString]

/-- A passing call at one of the six levels with a non-empty body returns, having
handed exactly one line to `log.Println` and reset the buffer. -/
theorem Output_of_pass (env : Env) (l : Logger) (std : StdLogger) (callDepth level : Int)
    (format : GoString) (v : List Value) (hpass : level ≥ l.level)
    (h0 : 0 ≤ level) (h5 : level ≤ 5) (hbody : env.Sprintf format v ≠ []) :
    ∃ line, Output env l std callDepth level format v =
      { logger := { l with buf := [] }, std := stdlog_Println env std line,
        panicked := false } := by
  obtain ⟨name, hname⟩ := LevelNameAt_of_range level h0 h5
  have hnot : ¬ l.level > level := not_lt.mpr hpass
  unfold Output
  simp only [hnot, if_false]
  by_cases hl : Int.land l.flag Llevel > 0
  · simp only [hl, if_true, hname]
    exact ⟨_, writeBody_of_ne_nil _ _ _ _ _ _ hbody⟩
  · simp only [hl, if_false]
    exact ⟨_, writeBody_of_ne_nil _ _ _ _ _ _ hbody⟩

/-- A call of `log.Println` is a write: the standard logger is not what it was. -/
theorem stdlog_Println_ne (env : Env) (std : StdLogger) (line : GoString) :
    stdlog_Println env std line ≠ std := by
  intro h
  have hlen := congrArg (fun s => s.out.length) h
  simp [stdlog_Println, stdlog_Output] at hlen

/-- The threshold test on bodies that are not empty: at each of the six levels a
line is written exactly when the level is at least the threshold. -/
theorem Output_writes_iff_of_ne_nil (env : Env) (l : Logger) (std : StdLogger)
    (callDepth level : Int) (format : GoString) (v : List Value)
    (h0 : 0 ≤ level) (h5 : level ≤ 5) (hbody : env.Sprintf format v ≠ []) :
    (Output env l std callDepth level format v).std ≠ std ↔ level ≥ l.level := by
  constructor
  · intro hw
    by_contra hlt
    exact hw (by rw [Output_of_filtered _ _ _ _ _ _ _ (not_le.mp hlt)])
  · intro hpass
    obtain ⟨line, hline⟩ := Output_of_pass env l std callDepth level format v hpass h0 h5 hbody
    rw [hline]
    exact stdlog_Println_ne env std line

/-- No path of `Output` calls the handler: it is the same after the call, with the
same writes received. -/
theorem Output_handler (env : Env) (l : Logger) (std : StdLogger) (callDepth level : Int)
    (format : GoString) (v : List Value) :
    (Output env l std callDepth level format v).logger.handler = l.handler := by
  unfold Output writeBody
  dsimp only
  repeat' split
  all_goals rfl

/-- The line handed to `log.Println` ends with a newline, and it is the body's own
when the body ends with one: `Output` adds a newline only when it is missing. -/
theorem line_getLast (buf s : GoString) (hs : s ≠ []) :
    (buf ++ s ++ (if s.getLast? = some '\n' then [] else ['\n'])).getLast? = some '\n' := by
  by_cases h : s.getLast? = some '\n'
  · simp [h, List.getLast?_append_of_ne_nil buf hs]
  · simp [h]

/-- A call entered with an empty buffer that returns leaves the buffer empty. -/
theorem Output_buf_of_returned (env : Env) (l : Logger) (std : StdLogger) (callDepth level : Int)
    (format : GoString) (v : List Value) (hbuf : l.buf = [])
    (hret : (Output env l std callDepth level format v).panicked = false) :
    (Output env l std callDepth level format v).logger.buf = [] := by
  revert hret
  unfold Output writeBody
  dsimp only
  repeat' split
  all_goals simp [hbuf]

/-- The threshold of a Logger made by `New` is `Info`. -/
theorem New_level (h : Handler) (f : Int) : (New h f).level = LevelInfo := rfl

/-- The method `Fatal` is `Output` at depth 2 and level `LevelFatal`, nothing else. -/
theorem Fatal_eq_Output (env : Env) (l : Logger) (std : StdLogger) (format : GoString)
    (v : List Value) :
    Fatal env l std format v = Output env l std 2 LevelFatal format v := rfl

/-! ## The claims -/

/-- Claim C1, where the code departs from it: with the threshold set to `Info`, an
`Info` call (level 2, so `L ≥ T`) whose formatted body is empty passes the threshold
test and then ends in a panic at the inspection of the last byte of the body, before
anything is written: the standard logger and the handler are as they were. -/
theorem threshold_pass_empty_body_writes_nothing :
    LevelInfo ≥ (SetLevel (New freshHandler 0) LevelInfo).level ∧
    Output exampleEnv (SetLevel (New freshHandler 0) LevelInfo) freshStd 2 LevelInfo [] [] =
      { logger := SetLevel (New freshHandler 0) LevelInfo, std := freshStd,
        panicked := true } := by
  decide

/-- Claim C2, where the code departs from it: the passing call `Info("x")` on
`New(handler, 0)` makes no write to the handler, which has received nothing after the
call; the line goes to the standard logger of package `log` instead, which writes it
behind its own header and with a newline of its own. -/
theorem Output_bypasses_handler :
    (Info exampleEnv (New freshHandler 0) freshStd "x".toList []).logger.handler.written = [] ∧
    Info exampleEnv (New freshHandler 0) freshStd "x".toList [] =
      { logger := New freshHandler 0,
        std := { out := ["2009/11/10 23:00:00 x\n\n".toList] },
        panicked := false } := by
  decide

/-- Claim C3, where the code departs from it: for `Info("done\n")` and for
`Info("done")` alike the text written out ends with two newlines, because the line,
which already ends with one, is printed with `log.Println`; for `Info("done")` the
second-to-last byte written is the newline that `Output` itself added. -/
theorem written_text_ends_with_two_newlines :
    (Info exampleEnv (New freshHandler 0) freshStd "done\n".toList []).std.out =
      ["2009/11/10 23:00:00 done\n\n".toList] ∧
    (Info exampleEnv (New freshHandler 0) freshStd "done".toList []).std.out =
      ["2009/11/10 23:00:00 done\n\n".toList] := by
  decide

/-- The line format on an empty buffer: for each of the eight combinations of the flags
Time, CallerLocation and LevelName, a passing call at one of the six levels with a non-empty formatted
body, made on a Logger whose buffer is empty, returns after handing to `log.Println`
exactly the concatenation of `[time] ` if Time is set, `file:line ` if CallerLocation
is set, `[name] ` with the level's name if LevelName is set, the body, and one
newline if the body does not end with one; a field whose flag is clear adds nothing,
and the buffer is empty again afterwards. -/
theorem Output_line_format (env : Env) (l : Logger) (std : StdLogger) (callDepth level : Int)
    (format : GoString) (v : List Value) (t c n : Bool)
    (hflag : l.flag = flagOf t c n)
    (hbuf : l.buf = [])
    (hpass : level ≥ l.level)
    (hlevel : 0 ≤ level ∧ level ≤ 5)
    (hbody : env.Sprintf format v ≠ []) :
    ∃ name, LevelNameAt level = some name ∧
      Output env l std callDepth level format v =
        { logger := l,
          std := stdlog_Println env std
            ((if t then "[".toList ++ env.now ++ "] ".toList else []) ++
             (if c then (callerLocation env callDepth).1 ++ ":".toList
                ++ Itoa (callerLocation env callDepth).2 ++ " ".toList else []) ++
             (if n then "[".toList ++ name ++ "] ".toList else []) ++
             env.Sprintf format v ++
             (if (env.Sprintf format v).getLast? = some '\n' then [] else "\n".toList)),
          panicked := false } := by
  obtain ⟨h0, h5⟩ := hlevel
  obtain ⟨name, hname⟩ := LevelNameAt_of_range level h0 h5
  refine ⟨name, hname, ?_⟩
  have hnot : ¬ l.level > level := not_lt.mpr hpass
  obtain ⟨lv, fl, hd, bf⟩ := l
  simp only at hflag hbuf hnot
  subst hflag hbuf
  unfold Output
  simp only [hnot, if_false, writeTimeAndFile, flagOf_time, flagOf_file, flagOf_level]
  cases t <;> cases c <;> cases n <;>
    simp [hname, writeBody_of_ne_nil _ _ _ _ _ _ hbody, WriteString, WriteByte]

/-- The line format at a concrete call: `Warn("disk full")` with all three flags set. -/
theorem Output_line_format_witness :
    ∃ name, LevelNameAt LevelWarn = some name ∧
      Output exampleEnv (New freshHandler 7) freshStd 2 LevelWarn "disk full".toList [] =
        { logger := New freshHandler 7,
          std := stdlog_Println exampleEnv freshStd
            ("[2009/11/10 23:00:00] ".toList ++ "main.go:12 ".toList ++
              ("[".toList ++ name ++ "] ".toList) ++ "disk full".toList ++ "\n".toList),
          panicked := false } :=
  Output_line_format exampleEnv (New freshHandler 7) freshStd 2 LevelWarn "disk full".toList []
    true true true (by decide) (by decide) (by decide) (by decide) (by decide)

/-- Claim C5, where the code departs from it: with threshold `Info` and the
LevelName flag only, `Warn("disk at %d%%", 91)` hands nothing to the handler; the
standard logger of package `log` writes the line behind its header and followed by
a second newline; and `Warn("")`, whose body is empty and so does not end in a
newline, ends in a panic with nothing written. -/
theorem Warn_example_not_received_by_handler :
    Warn exampleEnv (SetLevel (New freshHandler Llevel) LevelInfo) freshStd
        "disk at %d%%".toList [Value.int 91] =
      { logger := New freshHandler Llevel,
        std := { out := ["2009/11/10 23:00:00 [Warn] disk at 91%\n\n".toList] },
        panicked := false } ∧
    (New freshHandler Llevel).handler.written = [] ∧
    (Warn exampleEnv (SetLevel (New freshHandler Llevel) LevelInfo) freshStd [] []).panicked
      = true ∧
    (Warn exampleEnv (SetLevel (New freshHandler Llevel) LevelInfo) freshStd [] []).std
      = freshStd := by
  decide

/-- Claim C6, where the code departs from it: on a Logger made by `NewDefault` with
the threshold lowered to `Trace`, each of the six leveled methods called with the
format `""` (empty formatted body) ends in a runtime panic, and so does `Info("")`
on the Logger as `NewDefault` made it. -/
theorem leveled_methods_panic_on_empty_body :
    (Trace exampleEnv (SetLevel (NewDefault freshHandler) LevelTrace) freshStd [] []).panicked
      = true ∧
    (Debug exampleEnv (SetLevel (NewDefault freshHandler) LevelTrace) freshStd [] []).panicked
      = true ∧
    (Info exampleEnv (SetLevel (NewDefault freshHandler) LevelTrace) freshStd [] []).panicked
      = true ∧
    (Warn exampleEnv (SetLevel (NewDefault freshHandler) LevelTrace) freshStd [] []).panicked
      = true ∧
    (Error exampleEnv (SetLevel (NewDefault freshHandler) LevelTrace) freshStd [] []).panicked
      = true ∧
    (Fatal exampleEnv (SetLevel (NewDefault freshHandler) LevelTrace) freshStd [] []).panicked
      = true ∧
    (Info exampleEnv (NewDefault freshHandler) freshStd [] []).panicked = true := by
  decide

/-- Claim C7, where the code departs from it: `Fatal("")` on a fresh Logger (threshold
`Info`, at most `Fatal`) writes no line and does not return to its caller: it ends in
the panic that every passing call with an empty body ends in. -/
theorem Fatal_empty_body_panics :
    (New freshHandler 0).level ≤ LevelFatal ∧
    Fatal exampleEnv (New freshHandler 0) freshStd [] [] =
      { logger := New freshHandler 0, std := freshStd, panicked := true } := by
  decide

/-- The result of `New`: `New(h, f)` is the Logger with threshold `Info` (2), flags `f`, handler
`h` and an empty buffer, and `NewDefault(h)` is `New(h, 7)`, 7 being the three flags
together. So on a fresh Logger `Trace` and `Debug` return with nothing written and
nothing changed, whatever the message, while `Info`, `Warn`, `Error` and `Fatal` pass
the threshold: with a non-empty formatted body each hands one line to `log.Println`
and returns, the Logger being as `New` made it. -/
theorem New_threshold_Info (h : Handler) (f : Int) (env : Env) (std : StdLogger)
    (format : GoString) (v : List Value) :
    New h f = { level := 2, flag := f, handler := h, buf := [] } ∧
    NewDefault h = New h 7 ∧ flagOf true true true = 7 ∧
    (∀ M ∈ [Trace, Debug],
      M env (New h f) std format v = { logger := New h f, std := std, panicked := false }) ∧
    (∀ level ∈ [LevelInfo, LevelWarn, LevelError, LevelFatal], level ≥ (New h f).level) ∧
    (env.Sprintf format v ≠ [] → ∀ M ∈ [Info, Warn, Error, Fatal], ∃ line,
      M env (New h f) std format v =
        { logger := New h f, std := stdlog_Println env std line, panicked := false }) := by
  have hflags : Int.lor (Int.lor Ltime Lfile) Llevel = 7 := by decide
  refine ⟨rfl, by rw [NewDefault, hflags], by decide, ?_, 
    (show ∀ level ∈ [LevelInfo, LevelWarn, LevelError, LevelFatal], level ≥ LevelInfo
      by decide), ?_⟩
  · intro M hM
    simp only [List.mem_cons, List.mem_singleton, List.not_mem_nil, or_false] at hM
    rcases hM with rfl | rfl
    · exact Output_of_filtered env (New h f) std 2 LevelTrace format v
        (show LevelInfo > LevelTrace by decide)
    · exact Output_of_filtered env (New h f) std 2 LevelDebug format v
        (show LevelInfo > LevelDebug by decide)
  · intro hbody M hM
    simp only [List.mem_cons, List.mem_singleton, List.not_mem_nil, or_false] at hM
    rcases hM with rfl | rfl | rfl | rfl
    · exact Output_of_pass env (New h f) std 2 LevelInfo format v
        (show LevelInfo ≥ LevelInfo by decide)
        (by decide) (by decide) hbody
    · exact Output_of_pass env (New h f) std 2 LevelWarn format v
        (show LevelWarn ≥ LevelInfo by decide)
        (by decide) (by decide) hbody
    · exact Output_of_pass env (New h f) std 2 LevelError format v
        (show LevelError ≥ LevelInfo by decide)
        (by decide) (by decide) hbody
    · exact Output_of_pass env (New h f) std 2 LevelFatal format v
        (show LevelFatal ≥ LevelInfo by decide)
        (by decide) (by decide) hbody

/-- The fresh Logger at a concrete call: the message `"up"` on `New(handler, 0)`. -/
theorem New_threshold_Info_witness :
    exampleEnv.Sprintf "up".toList [] ≠ [] ∧
    ∀ M ∈ [Info, Warn, Error, Fatal], ∃ line,
      M exampleEnv (New freshHandler 0) freshStd "up".toList [] =
        { logger := New freshHandler 0, std := stdlog_Println exampleEnv freshStd line,
          panicked := false } :=
  ⟨by decide,
    (New_threshold_Info freshHandler 0 exampleEnv freshStd "up".toList []).2.2.2.2.2
      (by decide)⟩

/-- Claim C9 as stated fails below the range: after `SetLevel(-1)`, which is not one
of the six severities, a `Trace` call writes its line. -/
theorem SetLevel_negative_lets_Trace_through :
    ((-1 : Int) < 0 ∨ (-1 : Int) > 5) ∧
    (Trace exampleEnv (SetLevel (New freshHandler 0) (-1)) freshStd "x".toList []).std.out =
      ["2009/11/10 23:00:00 x\n\n".toList] := by
  decide

/-- Claim C9 as amended: `SetLevel(t)` stores any integer `t` as the threshold and
changes nothing else. For `t > 5` the threshold never matches afterwards: each of the
six leveled methods returns, whatever the message, with nothing written and the Logger
unchanged. For `t < 0` the threshold matches every one of the six levels: each
leveled method called with a non-empty formatted body hands one line to
`log.Println` and returns. -/
theorem SetLevel_out_of_range (env : Env) (l : Logger) (std : StdLogger) (t : Int)
    (format : GoString) (v : List Value) :
    SetLevel l t = { level := t, flag := l.flag, handler := l.handler, buf := l.buf } ∧
    (t > 5 → ∀ M ∈ leveledMethods,
      M env (SetLevel l t) std format v =
        { logger := SetLevel l t, std := std, panicked := false }) ∧
    (t < 0 → env.Sprintf format v ≠ [] → ∀ M ∈ leveledMethods, ∃ line,
      M env (SetLevel l t) std format v =
        { logger := { SetLevel l t with buf := [] }, std := stdlog_Println env std line,
          panicked := false }) := by
  refine ⟨rfl, ?_, ?_⟩
  · intro ht M hM
    simp only [leveledMethods, List.mem_cons, List.mem_singleton, List.not_mem_nil,
      or_false] at hM
    have hlv : (SetLevel l t).level = t := rfl
    rcases hM with rfl | rfl | rfl | rfl | rfl | rfl
    · exact Output_of_filtered env _ std 2 LevelTrace format v
        (by rw [hlv]; simp only [LevelTrace]; omega)
    · exact Output_of_filtered env _ std 2 LevelDebug format v
        (by rw [hlv]; simp only [LevelDebug]; omega)
    · exact Output_of_filtered env _ std 2 LevelInfo format v
        (by rw [hlv]; simp only [LevelInfo]; omega)
    · exact Output_of_filtered env _ std 2 LevelWarn format v
        (by rw [hlv]; simp only [LevelWarn]; omega)
    · exact Output_of_filtered env _ std 2 LevelError format v
        (by rw [hlv]; simp only [LevelError]; omega)
    · exact Output_of_filtered env _ std 2 LevelFatal format v
        (by rw [hlv]; simp only [LevelFatal]; omega)
  · intro ht hbody M hM
    simp only [leveledMethods, List.mem_cons, List.mem_singleton, List.not_mem_nil,
      or_false] at hM
    have hlv : (SetLevel l t).level = t := rfl
    rcases hM with rfl | rfl | rfl | rfl | rfl | rfl
    · exact Output_of_pass env _ std 2 LevelTrace format v
        (by rw [hlv]; simp only [LevelTrace]; omega) (by decide) (by decide) hbody
    · exact Output_of_pass env _ std 2 LevelDebug format v
        (by rw [hlv]; simp only [LevelDebug]; omega) (by decide) (by decide) hbody
    · exact Output_of_pass env _ std 2 LevelInfo format v
        (by rw [hlv]; simp only [LevelInfo]; omega) (by decide) (by decide) hbody
    · exact Output_of_pass env _ std 2 LevelWarn format v
        (by rw [hlv]; simp only [LevelWarn]; omega) (by decide) (by decide) hbody
    · exact Output_of_pass env _ std 2 LevelError format v
        (by rw [hlv]; simp only [LevelError]; omega) (by decide) (by decide) hbody
    · exact Output_of_pass env _ std 2 LevelFatal format v
        (by rw [hlv]; simp only [LevelFatal]; omega) (by decide) (by decide) hbody

/-- Claim C9 as amended at concrete thresholds: 6, above the range, and -1, below it. -/
theorem SetLevel_out_of_range_witness :
    ((6 : Int) > 5 ∧ ∀ M ∈ leveledMethods,
      M exampleEnv (SetLevel (New freshHandler 7) 6) freshStd "x".toList [] =
        { logger := SetLevel (New freshHandler 7) 6, std := freshStd, panicked := false }) ∧
    ((-1 : Int) < 0 ∧ exampleEnv.Sprintf "x".toList [] ≠ [] ∧ ∀ M ∈ leveledMethods, ∃ line,
      M exampleEnv (SetLevel (New freshHandler 7) (-1)) freshStd "x".toList [] =
        { logger := { SetLevel (New freshHandler 7) (-1) with buf := [] },
          std := stdlog_Println exampleEnv freshStd line, panicked := false }) :=
  ⟨⟨by decide,
      (SetLevel_out_of_range exampleEnv (New freshHandler 7) freshStd 6 "x".toList []).2.1
        (by decide)⟩,
    ⟨by decide, by decide,
      (SetLevel_out_of_range exampleEnv (New freshHandler 7) freshStd (-1) "x".toList []).2.2
        (by decide) (by decide)⟩⟩

/-- Claim C10, where the code departs from it: `Info("")` on `New(handler, Llevel)` is
entered with the buffer empty and ends in a panic with `[Info] ` left in the buffer,
the reset of line 133 not being reached; the next call, `Info("x")`, is entered with
that buffer and prints `[Info] [Info] x`. -/
theorem panic_leaves_buffer_filled :
    (New freshHandler Llevel).buf = [] ∧
    Info exampleEnv (New freshHandler Llevel) freshStd [] [] =
      { logger := { New freshHandler Llevel with buf := "[Info] ".toList }, std := freshStd,
        panicked := true } ∧
    (Info exampleEnv (Info exampleEnv (New freshHandler Llevel) freshStd [] []).logger
        freshStd "x".toList []).std.out =
      ["2009/11/10 23:00:00 [Info] [Info] x\n\n".toList] := by
  decide

/-! ## Lemmas on the location field -/

/-- When no index from 1 to `i` holds a `'/'`, the loop leaves the path as it is. -/
theorem basenameLoop_of_no_slash (file : GoString) (i : Nat)
    (h : ∀ j, 1 ≤ j → j ≤ i → file[j]? ≠ some '/') : basenameLoop file i = file := by
  induction i with
  | zero => rfl
  | succ i ih =>
    have h1 : file[i + 1]? ≠ some '/' := h (i + 1) (by omega) (le_refl _)
    simp only [basenameLoop, h1, if_false]
    exact ih (fun j hj hji => h j hj (by omega))

/-- When the highest index up to `i` that holds a `'/'` is `k`, and `k` is not 0, the
loop cuts the path right after it. -/
theorem basenameLoop_of_last_slash (file : GoString) (k i : Nat) (hk : 1 ≤ k) (hki : k ≤ i)
    (hslash : file[k]? = some '/')
    (h : ∀ j, k < j → j ≤ i → file[j]? ≠ some '/') :
    basenameLoop file i = file.drop (k + 1) := by
  induction i with
  | zero => omega
  | succ i ih =>
    by_cases hki' : k = i + 1
    · subst hki'
      simp [basenameLoop, hslash]
    · have h1 : file[i + 1]? ≠ some '/' := h (i + 1) (by omega) (le_refl _)
      simp only [basenameLoop, h1, if_false]
      exact ih (by omega) (fun j hj hji => h j hj (by omega))

/-- A path `dir/base` with a non-empty `dir` and no `'/'` in `base` is cut to `base`. -/
theorem basenameLoop_of_dir (dir base : GoString) (hdir : dir ≠ []) (hbase : '/' ∉ base) :
    basenameLoop (dir ++ '/' :: base) ((dir ++ '/' :: base).length - 1) = base := by
  have hlen : 1 ≤ dir.length := List.length_pos.mpr hdir
  have hd : (dir ++ '/' :: base).drop (dir.length + 1) = base := by
    simp [List.drop_append]
  have key := basenameLoop_of_last_slash (dir ++ '/' :: base) dir.length
    ((dir ++ '/' :: base).length - 1) hlen (by simp)
    (by rw [List.getElem?_append_right (le_refl _)]; simp) ?_
  · rw [key, hd]
  · intro j hj _ hjs
    rw [List.getElem?_append_right (by omega)] at hjs
    obtain ⟨m, hm⟩ : ∃ m, j - dir.length = m + 1 := ⟨j - dir.length - 1, by omega⟩
    rw [hm, List.getElem?_cons_succ] at hjs
    exact hbase (List.getElem?_mem hjs)

/-- A path without a `'/'` is rendered whole. -/
theorem basenameLoop_of_plain (file : GoString) (h : '/' ∉ file) :
    basenameLoop file (file.length - 1) = file :=
  basenameLoop_of_no_slash file _ (fun _ _ _ hj => h (List.getElem?_mem hj))

/-- A failed lookup is rendered as the file `???` and the line 0. -/
theorem callerLocation_of_failed (env : Env) (callDepth : Int)
    (hfail : (env.Caller callDepth).2.2 = false) :
    callerLocation env callDepth = ("???".toList, 0) := by
  unfold callerLocation
  rcases hc : env.Caller callDepth with ⟨file, line, ok⟩
  rw [hc] at hfail
  simp only at hfail
  simp [hfail]

/-- A lookup that succeeds with the file `???` and the line 0 is rendered as such. -/
theorem callerLocation_withPlaceholderLookup (env : Env) (callDepth : Int) :
    callerLocation (withPlaceholderLookup env) callDepth = ("???".toList, 0) := by
  simp only [callerLocation, withPlaceholderLookup]
  decide

/-- The outcome of `Output` depends on the caller lookup through the rendered
location only. -/
theorem Output_congr_location (env env2 : Env) (l : Logger) (sl : StdLogger)
    (callDepth level : Int) (format : GoString) (v : List Value)
    (hnow : env2.now = env.now) (hfmt : env2.Sprintf = env.Sprintf)
    (hhdr : env2.stdHeader = env.stdHeader)
    (hloc : callerLocation env2 callDepth = callerLocation env callDepth) :
    Output env2 l sl callDepth level format v = Output env l sl callDepth level format v := by
  unfold Output writeTimeAndFile writeBody stdlog_Println
  simp only [hnow, hfmt, hhdr, hloc]

/-- The line of a passing call at one of the six levels with a non-empty body: what
the buffer held on entry, then the enabled fields in their order, the body, and the
newline when the body lacks one. -/
theorem Output_eq_line (env : Env) (l : Logger) (sl : StdLogger) (callDepth level : Int)
    (format : GoString) (v : List Value) (t c n : Bool)
    (hflag : l.flag = flagOf t c n) (hpass : level ≥ l.level)
    (h0 : 0 ≤ level) (h5 : level ≤ 5) (hbody : env.Sprintf format v ≠ []) :
    ∃ name, LevelNameAt level = some name ∧
      Output env l sl callDepth level format v =
        { logger := { l with buf := [] },
          std := stdlog_Println env sl
            (l.buf ++
             (if t then "[".toList ++ env.now ++ "] ".toList else []) ++
             (if c then (callerLocation env callDepth).1 ++ ":".toList
                ++ Itoa (callerLocation env callDepth).2 ++ " ".toList else []) ++
             (if n then "[".toList ++ name ++ "] ".toList else []) ++
             env.Sprintf format v ++
             (if (env.Sprintf format v).getLast? = some '\n' then [] else "\n".toList)),
          panicked := false } := by
  obtain ⟨name, hname⟩ := LevelNameAt_of_range level h0 h5
  refine ⟨name, hname, ?_⟩
  have hnot : ¬ l.level > level := not_lt.mpr hpass
  obtain ⟨lv, fl, hd, bf⟩ := l
  simp only at hflag hnot
  subst hflag
  unfold Output
  simp only [hnot, if_false, writeTimeAndFile, flagOf_time, flagOf_file, flagOf_level]
  cases t <;> cases c <;> cases n <;>
    simp [hname, writeBody_of_ne_nil _ _ _ _ _ _ hbody, WriteString, WriteByte]

/-- At each of the six levels a call with a non-empty body does not panic. -/
theorem Output_not_panicked (env : Env) (l : Logger) (sl : StdLogger) (callDepth level : Int)
    (format : GoString) (v : List Value) (h0 : 0 ≤ level) (h5 : level ≤ 5)
    (hbody : env.Sprintf format v ≠ []) :
    (Output env l sl callDepth level format v).panicked = false := by
  by_cases hlt : l.level > level
  · rw [Output_of_filtered _ _ _ _ _ _ _ hlt]
  · obtain ⟨line, hline⟩ :=
      Output_of_pass env l sl callDepth level format v (not_lt.mp hlt) h0 h5 hbody
    rw [hline]

/-! ## Lemmas on sequences of operations -/

/-- No path of `Output` assigns the threshold. -/
theorem Output_level (env : Env) (l : Logger) (sl : StdLogger) (callDepth level : Int)
    (format : GoString) (v : List Value) :
    (Output env l sl callDepth level format v).logger.level = l.level := by
  unfold Output writeBody
  dsimp only
  repeat' split
  all_goals rfl

/-- No path of `Output` assigns the flags. -/
theorem Output_flag (env : Env) (l : Logger) (sl : StdLogger) (callDepth level : Int)
    (format : GoString) (v : List Value) :
    (Output env l sl callDepth level format v).logger.flag = l.flag := by
  unfold Output writeBody
  dsimp only
  repeat' split
  all_goals rfl

/-- A call entered with an empty buffer that returns leaves the Logger as it was. -/
theorem Output_logger_of_returned (env : Env) (l : Logger) (sl : StdLogger)
    (callDepth level : Int) (format : GoString) (v : List Value) (hbuf : l.buf = [])
    (hret : (Output env l sl callDepth level format v).panicked = false) :
    (Output env l sl callDepth level format v).logger = l := by
  have h1 := Output_level env l sl callDepth level format v
  have h2 := Output_flag env l sl callDepth level format v
  have h3 := Output_handler env l sl callDepth level format v
  have h4 := Output_buf_of_returned env l sl callDepth level format v hbuf hret
  rw [← hbuf] at h4
  cases hl : (Output env l sl callDepth level format v).logger
  cases l
  rw [hl] at h1 h2 h3 h4
  simp only at h1 h2 h3 h4
  simp [h1, h2, h3, h4]

/-- A sequence of operations leaves the flags as they were. -/
theorem run_flag (s : Logger × StdLogger) (ops : List Op) : (run s ops).1.flag = s.1.flag := by
  induction ops generalizing s with
  | nil => rfl
  | cons op ops ih =>
    rw [run, ih (step s op)]
    cases op with
    | setLevel level => rfl
    | output env callDepth level format v => exact Output_flag env s.1 s.2 callDepth level format v

/-- A sequence of operations leaves the handler as it was, with the writes it had. -/
theorem run_handler (s : Logger × StdLogger) (ops : List Op) :
    (run s ops).1.handler = s.1.handler := by
  induction ops generalizing s with
  | nil => rfl
  | cons op ops ih =>
    rw [run, ih (step s op)]
    cases op with
    | setLevel level => rfl
    | output env callDepth level format v =>
      exact Output_handler env s.1 s.2 callDepth level format v

/-- After a sequence of operations the threshold is the argument of its most recent
`SetLevel`, and what it was before when the sequence has none. -/
theorem run_level (s : Logger × StdLogger) (ops : List Op) :
    (run s ops).1.level = lastLevel s.1.level ops := by
  induction ops generalizing s with
  | nil => rfl
  | cons op ops ih =>
    rw [run, ih (step s op)]
    cases op with
    | setLevel level => rfl
    | output env callDepth level format v =>
      simp only [step, lastLevel, Output_level]

/-- After a sequence of operations none of which panicked, started with an empty
buffer, the Logger is the one it was, with the threshold of the most recent
`SetLevel`: nothing of the earlier calls is left in it. -/
theorem run_of_faultFree (s : Logger × StdLogger) (ops : List Op) (hbuf : s.1.buf = [])
    (hff : faultFree s ops = true) :
    (run s ops).1 = { s.1 with level := lastLevel s.1.level ops } := by
  induction ops generalizing s with
  | nil => rfl
  | cons op ops ih =>
    simp only [faultFree, Bool.and_eq_true, Bool.not_eq_true'] at hff
    cases op with
    | setLevel level =>
      rw [run, ih (step s (Op.setLevel level)) hbuf hff.2]
      rfl
    | output env callDepth level format v =>
      have hl : (step s (Op.output env callDepth level format v)).1 = s.1 :=
        Output_logger_of_returned env s.1 s.2 callDepth level format v hbuf hff.1
      rw [run, ih (step s (Op.output env callDepth level format v)) (by rw [hl]; exact hbuf)
        hff.2, hl]
      rfl

/-- `Output` leaves threshold, flags and handler as they were, however it ends. -/
theorem Output_sameSettings (env : Env) (l : Logger) (sl : StdLogger) (callDepth level : Int)
    (format : GoString) (v : List Value) :
    sameSettings (Output env l sl callDepth level format v).logger l :=
  ⟨Output_level env l sl callDepth level format v, Output_flag env l sl callDepth level format v,
    Output_handler env l sl callDepth level format v⟩

/-! ## The claims, continued -/

/-- Claim C11, where the code departs from it: for a source file in the root
directory the successful lookup returns `/main.go`, whose only `'/'` is at index 0;
the loop of lines 103-108 stops before index 0, so the location field is rendered
`/main.go:12 `, with the `'/'`, and not the basename `main.go`. -/
theorem root_file_rendered_with_slash :
    rootEnv.Caller 2 = ("/main.go".toList, 12, true) ∧
    callerLocation rootEnv 2 = ("/main.go".toList, 12) ∧
    '/' ∈ (callerLocation rootEnv 2).1 ∧
    (Info rootEnv (New freshHandler Lfile) freshStd "x".toList []).std.out =
      ["2009/11/10 23:00:00 /main.go:12 x\n\n".toList] := by
  decide

/-- The placeholder of a failed lookup: when the caller lookup fails, whatever the call depth and whatever
file and line come with the failure, the location is the file `???` and the line 0;
the outcome of `Output` is then, for every Logger, level and message, the outcome it
has when the lookup succeeds with that file and line, so the failure brings no fault
and nothing else to the caller; and on a passing call at one of the six levels with
the CallerLocation flag set, a non-empty body and an empty buffer, the line is built
as for a successful lookup, with `???:0 ` as its location field, handed to
`log.Println`, and the call returns. -/
theorem failed_lookup_renders_placeholder (env : Env) (l : Logger) (sl : StdLogger)
    (callDepth level : Int) (format : GoString) (v : List Value)
    (hfail : (env.Caller callDepth).2.2 = false) :
    callerLocation env callDepth = ("???".toList, 0) ∧
    Output env l sl callDepth level format v =
      Output (withPlaceholderLookup env) l sl callDepth level format v ∧
    (∀ t n : Bool, l.flag = flagOf t true n → l.buf = [] → level ≥ l.level →
      0 ≤ level → level ≤ 5 → env.Sprintf format v ≠ [] →
      ∃ name, LevelNameAt level = some name ∧
        Output env l sl callDepth level format v =
          { logger := l,
            std := stdlog_Println env sl
              ((if t then "[".toList ++ env.now ++ "] ".toList else []) ++
               "???:0 ".toList ++
               (if n then "[".toList ++ name ++ "] ".toList else []) ++
               env.Sprintf format v ++
               (if (env.Sprintf format v).getLast? = some '\n' then [] else "\n".toList)),
            panicked := false }) := by
  have hloc := callerLocation_of_failed env callDepth hfail
  refine ⟨hloc, ?_, ?_⟩
  · exact (Output_congr_location env (withPlaceholderLookup env) l sl callDepth level format v
      rfl rfl rfl (by rw [hloc, callerLocation_withPlaceholderLookup])).symm
  · intro t n hflag hbuf hpass h0 h5 hbody
    obtain ⟨name, hname, hout⟩ :=
      Output_eq_line env l sl callDepth level format v t true n hflag hpass h0 h5 hbody
    refine ⟨name, hname, ?_⟩
    have hl : ({ l with buf := [] } : Logger) = l := by
      cases l
      simp only at hbuf
      simp [hbuf]
    have hitoa : "???".toList ++ ":".toList ++ Itoa 0 ++ " ".toList = "???:0 ".toList := by
      decide
    rw [hout, hl, hbuf, hloc]
    simp only [if_true, hitoa, List.nil_append]

/-- The placeholder at a concrete call: `Warn("x")` with all three flags set, the lookup
failing. -/
theorem failed_lookup_renders_placeholder_witness :
    (failedLookupEnv.Caller 2).2.2 = false ∧
    callerLocation failedLookupEnv 2 = ("???".toList, 0) ∧
    Output failedLookupEnv (New freshHandler 7) freshStd 2 LevelWarn "x".toList [] =
      Output (withPlaceholderLookup failedLookupEnv) (New freshHandler 7) freshStd 2 LevelWarn
        "x".toList [] ∧
    ∃ name, LevelNameAt LevelWarn = some name ∧
      Output failedLookupEnv (New freshHandler 7) freshStd 2 LevelWarn "x".toList [] =
        { logger := New freshHandler 7,
          std := stdlog_Println failedLookupEnv freshStd
            ("[2009/11/10 23:00:00] ".toList ++ "???:0 ".toList ++
              ("[".toList ++ name ++ "] ".toList) ++ "x".toList ++ "\n".toList),
          panicked := false } :=
  ⟨by decide,
    (failed_lookup_renders_placeholder failedLookupEnv (New freshHandler 7) freshStd 2
      LevelWarn "x".toList [] (by decide)).1,
    (failed_lookup_renders_placeholder failedLookupEnv (New freshHandler 7) freshStd 2
      LevelWarn "x".toList [] (by decide)).2.1,
    (failed_lookup_renders_placeholder failedLookupEnv (New freshHandler 7) freshStd 2
      LevelWarn "x".toList [] (by decide)).2.2 true true (by decide) (by decide) (by decide)
      (by decide) (by decide) (by decide)⟩

/-- Claim C13: `SetLevel(t)` sets the threshold to `t` and leaves flags, handler and
buffer as they were; `Output` and each of the six leveled methods leave threshold,
flags and handler as they were, however the call ends; so after any sequence of
`SetLevel` and `Output` calls on `New(h, f)` the flags are `f`, the handler is `h`
with the writes it had, and the threshold is the argument of the most recent
`SetLevel`, `Info` when there was none. -/
theorem mutation_limited_to_SetLevel (h : Handler) (f : Int) (l : Logger) (t : Int)
    (env : Env) (sl : StdLogger) (callDepth level : Int) (format : GoString) (v : List Value)
    (ops : List Op) :
    SetLevel l t = { level := t, flag := l.flag, handler := l.handler, buf := l.buf } ∧
    sameSettings (Output env l sl callDepth level format v).logger l ∧
    (sameSettings (Trace env l sl format v).logger l ∧
      sameSettings (Debug env l sl format v).logger l ∧
      sameSettings (Info env l sl format v).logger l ∧
      sameSettings (Warn env l sl format v).logger l ∧
      sameSettings (Error env l sl format v).logger l ∧
      sameSettings (Fatal env l sl format v).logger l) ∧
    ((run (New h f, sl) ops).1.flag = f ∧
      (run (New h f, sl) ops).1.handler = h ∧
      (run (New h f, sl) ops).1.level = lastLevel LevelInfo ops) :=
  ⟨rfl, Output_sameSettings env l sl callDepth level format v,
    ⟨Output_sameSettings env l sl 2 LevelTrace format v,
      Output_sameSettings env l sl 2 LevelDebug format v,
      Output_sameSettings env l sl 2 LevelInfo format v,
      Output_sameSettings env l sl 2 LevelWarn format v,
      Output_sameSettings env l sl 2 LevelError format v,
      Output_sameSettings env l sl 2 LevelFatal format v⟩,
    ⟨run_flag (New h f, sl) ops, run_handler (New h f, sl) ops, run_level (New h f, sl) ops⟩⟩

/-- Claim C14: the package variable `std` starts as `NewDefault(newStdHandler())`,
with threshold `Info`, the three flags set and an empty buffer; and on every value
`s` of that Logger each package-level function gives what the method of the same
name gives on `s` with the same arguments, the six logging functions being
`Output` at depth 2 with the severity of their name. -/
theorem package_functions_delegate (env : Env) (s : Logger) (sl : StdLogger) (t : Int)
    (format : GoString) (v : List Value) :
    (std = NewDefault newStdHandler ∧ std.level = LevelInfo ∧
      std.flag = flagOf true true true ∧ std.buf = []) ∧
    Pkg.SetLevel s t = SetLevel s t ∧
    (Pkg.Trace env s sl format v = Trace env s sl format v ∧
      Pkg.Debug env s sl format v = Debug env s sl format v ∧
      Pkg.Info env s sl format v = Info env s sl format v ∧
      Pkg.Warn env s sl format v = Warn env s sl format v ∧
      Pkg.Error env s sl format v = Error env s sl format v ∧
      Pkg.Fatal env s sl format v = Fatal env s sl format v) ∧
    (Pkg.Trace env s sl format v = Output env s sl 2 LevelTrace format v ∧
      Pkg.Debug env s sl format v = Output env s sl 2 LevelDebug format v ∧
      Pkg.Info env s sl format v = Output env s sl 2 LevelInfo format v ∧
      Pkg.Warn env s sl format v = Output env s sl 2 LevelWarn format v ∧
      Pkg.Error env s sl format v = Output env s sl 2 LevelError format v ∧
      Pkg.Fatal env s sl format v = Output env s sl 2 LevelFatal format v) :=
  ⟨⟨rfl, rfl, by decide, rfl⟩, rfl, ⟨rfl, rfl, rfl, rfl, rfl, rfl⟩,
    ⟨rfl, rfl, rfl, rfl, rfl, rfl⟩⟩

/-- Claim C16: at each of the six levels, for every threshold, flag value, buffer
and outcome of the caller lookup, a call of `Output` whose formatted body is not
empty ends without a panic: the index into the table of level names is in range and
the body has a last byte to inspect. -/
theorem Output_runs_to_completion (env : Env) (l : Logger) (sl : StdLogger)
    (callDepth level : Int) (format : GoString) (v : List Value)
    (hlevel : 0 ≤ level ∧ level ≤ 5) (hbody : env.Sprintf format v ≠ []) :
    (Output env l sl callDepth level format v).panicked = false ∧
    (LevelNameAt level).isSome = true ∧
    (env.Sprintf format v).getLast?.isSome = true := by
  refine ⟨Output_not_panicked env l sl callDepth level format v hlevel.1 hlevel.2 hbody, ?_, ?_⟩
  · obtain ⟨name, hname⟩ := LevelNameAt_of_range level hlevel.1 hlevel.2
    rw [hname]
    rfl
  · cases hs : (env.Sprintf format v).getLast? with
    | none => exact absurd (List.getLast?_eq_none_iff.mp hs) hbody
    | some c => rfl

/-- Claim C16 at a concrete call: `Output(2, LevelFatal, "%s", "down")` with the
threshold at -3, all flags set and the caller lookup failing. -/
theorem Output_runs_to_completion_witness :
    ((0 : Int) ≤ LevelFatal ∧ LevelFatal ≤ 5) ∧
    failedLookupEnv.Sprintf "%s".toList [Value.str "down".toList] ≠ [] ∧
    (Output failedLookupEnv (SetLevel (New freshHandler 7) (-3)) freshStd 2 LevelFatal
        "%s".toList [Value.str "down".toList]).panicked = false ∧
    (LevelNameAt LevelFatal).isSome = true ∧
    (failedLookupEnv.Sprintf "%s".toList [Value.str "down".toList]).getLast?.isSome = true :=
  ⟨by decide, by decide,
    Output_runs_to_completion failedLookupEnv (SetLevel (New freshHandler 7) (-3)) freshStd 2
      LevelFatal "%s".toList [Value.str "down".toList] (by decide) (by decide)⟩

/-- Claim C17, where the code departs from it: on `New(handler, Llevel)` the earlier
call `Warn("")` ends in a panic, which the caller recovers from; threshold and flags
are then those of a fresh Logger, yet the next call `Info("x")` prints
`[Warn] [Info] x` where the fresh Logger prints `[Info] x`: the bytes `[Warn] ` of the
earlier call are in the line. -/
theorem earlier_fault_leaks_into_next_line :
    faultFree (New freshHandler Llevel, freshStd) [Op.output exampleEnv 2 LevelWarn [] []]
      = false ∧
    sameSettings
      (run (New freshHandler Llevel, freshStd) [Op.output exampleEnv 2 LevelWarn [] []]).1
      (New freshHandler Llevel) ∧
    (Info exampleEnv
        (run (New freshHandler Llevel, freshStd) [Op.output exampleEnv 2 LevelWarn [] []]).1
        freshStd "x".toList []).std.out =
      ["2009/11/10 23:00:00 [Warn] [Info] x\n\n".toList] ∧
    (Info exampleEnv (New freshHandler Llevel) freshStd "x".toList []).std.out =
      ["2009/11/10 23:00:00 [Info] x\n\n".toList] := by
  refine ⟨by decide, ⟨by decide, by decide, by decide⟩, by decide, by decide⟩

/-! ## The claims on the line format, the fresh Logger and the failed lookup -/

/-- Claim C4, where the code departs from it: with all three flags set, `Error("")`
ends in a panic that leaves its fields in the buffer (the caller recovers); the
next call, `Warn("x")`, passes the threshold with a non-empty body, and the line
built in the buffer and handed to `log.Println` is not the concatenation
`[time] file:line [Warn] x` and a newline: it starts with the fields of the earlier
call. -/
theorem dirty_buffer_breaks_line_format :
    Error exampleEnv (New freshHandler 7) freshStd [] [] =
      { logger := { New freshHandler 7 with
          buf := "[2009/11/10 23:00:00] main.go:12 [Error] ".toList },
        std := freshStd, panicked := true } ∧
    LevelWarn ≥ (Error exampleEnv (New freshHandler 7) freshStd [] []).logger.level ∧
    exampleEnv.Sprintf "x".toList [] ≠ [] ∧
    Warn exampleEnv (Error exampleEnv (New freshHandler 7) freshStd [] []).logger freshStd
        "x".toList [] =
      { logger := New freshHandler 7,
        std := stdlog_Println exampleEnv freshStd
          ("[2009/11/10 23:00:00] main.go:12 [Error] ".toList ++
            "[2009/11/10 23:00:00] main.go:12 [Warn] x\n".toList),
        panicked := false } ∧
    "[2009/11/10 23:00:00] main.go:12 [Error] ".toList ++
        "[2009/11/10 23:00:00] main.go:12 [Warn] x\n".toList ≠
      "[2009/11/10 23:00:00] main.go:12 [Warn] x\n".toList := by
  decide

/-- Claim C8, where the code departs from it: `New(handler, 0)` has threshold `Info`,
flags 0, the handler given and an empty buffer, and `NewDefault` sets the flags to 7,
but the fresh Logger does not write every `Info`, `Warn`, `Error` and `Fatal`
message: called with the format `""` each of the four passes the threshold and ends
in a panic with nothing written. -/
theorem fresh_logger_empty_body_not_written :
    New freshHandler 0 = { level := 2, flag := 0, handler := freshHandler, buf := [] } ∧
    NewDefault freshHandler = New freshHandler 7 ∧
    Info exampleEnv (New freshHandler 0) freshStd [] [] =
      { logger := New freshHandler 0, std := freshStd, panicked := true } ∧
    Warn exampleEnv (New freshHandler 0) freshStd [] [] =
      { logger := New freshHandler 0, std := freshStd, panicked := true } ∧
    Error exampleEnv (New freshHandler 0) freshStd [] [] =
      { logger := New freshHandler 0, std := freshStd, panicked := true } ∧
    Fatal exampleEnv (New freshHandler 0) freshStd [] [] =
      { logger := New freshHandler 0, std := freshStd, panicked := true } := by
  decide

/-- Claim C12, where the code departs from it: with the caller lookup failing, the
passing call `Output(2, LevelWarn, "")` on a Logger with all three flags set renders
the placeholder `???:0 ` into the buffer and then ends in a panic at the inspection
of the empty body: nothing is written and the panic reaches the caller. -/
theorem failed_lookup_empty_body_panics :
    (failedLookupEnv.Caller 2).2.2 = false ∧
    LevelWarn ≥ (New freshHandler 7).level ∧
    Output failedLookupEnv (New freshHandler 7) freshStd 2 LevelWarn [] [] =
      { logger := { New freshHandler 7 with
          buf := "[2009/11/10 23:00:00] ???:0 [Warn] ".toList },
        std := freshStd, panicked := true } := by
  decide

end Log
